import Mathlib

/-!
Shallow embedding of the VU Studio Booking API pricing and hold-management
code, with theorems checking the natural-language specification against it.

The repository contains several near-duplicate server variants:
* `server.js` (first variant): `computeQuote` — engineer resolved by name,
  hours floored at 2 with no ceiling, post-production priced
  first-camera 200 + 100 per additional camera.  The identical function also
  appears in `part_002`.
* `server.js` (second variant): `computeTotals` — hours clamped to [2, 6],
  post-production resolved as `Number(b.postProduction) || totalCams` over a
  tier table, so an explicit 0 falls back to the camera count.
  Embedded here as `computeTotalsV2`.
* `server.js` (third variant): `computeTotals` — the "fixed" calculator where
  post-production is strictly what the user selected.  Embedded as
  `computeTotalsV3`.
* `part_003`: `computeQuote` with a separate `extraCamsSubtotal` breakdown
  field and the `postProdTiered` helper.  Embedded as `computeQuoteP3`.
* `part_002`: the Bookla-style hold manager — `/public/hold` route and
  `verifyAndConsumeHold`.

JavaScript numbers supplied by the client are modelled as `Option Int`:
`none` stands for an absent or non-numeric (NaN) field and `some n` for a
finite number; all arithmetic in the pricing code is integer-valued.
JS strings are `Option String` (`none` = absent), and the JS falsy coercion
`x || d` (which also treats `0` and `""` as absent) is modelled explicitly by
`jsOrS` / `jsOrN`.  Boolean flags are `Bool` (the servers only test
truthiness, and variant 3's `toBool` collapses truthy encodings to `true`).
-/

/-- JS `s.toUpperCase()`, modelled character-wise so the kernel can compute it. -/
def jsToUpper (s : String) : String := String.mk (s.data.map Char.toUpper)

/-- JS `s.toLowerCase()`, modelled character-wise so the kernel can compute it. -/
def jsToLower (s : String) : String := String.mk (s.data.map Char.toLower)

/-- JS `v || d` for string values: `undefined`/`null` and `""` are falsy. -/
def jsOrS (v : Option String) (d : String) : String :=
  match v with
  | none => d
  | some s => if s = "" then d else s

/-- JS `Number(v) || d`: absent/NaN and `0` fall back to the default. -/
def jsOrN (v : Option Int) (d : Int) : Int :=
  match v with
  | none => d
  | some n => if n = 0 then d else n

/-- Helper `num(n, d)` from `server.js`: a finite number, else the default. -/
def num (v : Option Int) (d : Int) : Int :=
  match v with
  | none => d
  | some n => n

/-- Client booking request body (untrusted JSON), fields as the calculators read them. -/
structure Body where
  hours : Option Int
  mode : Option String
  engineer : Option String
  engineerChoice : Option String
  extraCameras : Option Int
  postProduction : Option Int
  peopleOnCamera : Option Int
  teleprompter : Bool
  remoteGuest : Bool
  adClips5 : Bool
  mediaSdOrUsb : Bool
  isFirstTime : Bool
deriving DecidableEq, Repr

/-- Empty request body: every field absent, every flag false. -/
def b0 : Body :=
  ⟨none, none, none, none, none, none, none, false, false, false, false, false⟩

-- ------------------- Pricing constants (server.js, first variant) -----------

def HOURLY_BASE_ONE_CAM : Int := 55
def HOURLY_BASE_AUDIOONLY : Int := 45
def HOURLY_ENGINEER : Int := 20
def TELEPROMPTER_FEE : Int := 25
def REMOTE_GUEST_FEE : Int := 10
def AD_CLIPS_5_FEE : Int := 150
def MEDIA_SD_USB_FEE : Int := 50
def EXTRA_CAMERA_EACH_FEE : Int := 25
def POST_PROD_FIRST : Int := 200
def POST_PROD_EACH_ADDL : Int := 100
def MIN_HOURS : Int := 2

-- ------------------- computeQuote (server.js first variant; also part_002) --

/-- `Math.max(MIN_HOURS, num(body.hours, MIN_HOURS))`. -/
def hoursV1 (b : Body) : Int := max MIN_HOURS (num b.hours MIN_HOURS)

/-- `(body.mode || "ONE_CAMERA").toUpperCase()`. -/
def modeV1 (b : Body) : String := jsToUpper (jsOrS b.mode "ONE_CAMERA")

/-- Mode-dependent hourly base rate. -/
def baseHourlyV1 (b : Body) : Int :=
  if modeV1 b = "AUDIO_ONLY" then HOURLY_BASE_AUDIOONLY else HOURLY_BASE_ONE_CAM

/-- `body.engineer || body.engineerChoice || "Floating"`. -/
def engineerNameV1 (b : Body) : String :=
  jsOrS b.engineer (jsOrS b.engineerChoice "Floating")

/-- `engineerName === "None" ? 0 : HOURLY_ENGINEER`. -/
def engineerHourlyV1 (b : Body) : Int :=
  if engineerNameV1 b = "None" then 0 else HOURLY_ENGINEER

/-- `Math.max(0, num(body.extraCameras, 0))`. -/
def extraCamsV1 (b : Body) : Int := max 0 (num b.extraCameras 0)

/-- Flat per-session add-ons plus the per-extra-camera fee. -/
def extrasSessionV1 (b : Body) : Int :=
  (if b.teleprompter then TELEPROMPTER_FEE else 0) +
  (if b.remoteGuest then REMOTE_GUEST_FEE else 0) +
  (if b.adClips5 then AD_CLIPS_5_FEE else 0) +
  (if b.mediaSdOrUsb then MEDIA_SD_USB_FEE else 0) +
  extraCamsV1 b * EXTRA_CAMERA_EACH_FEE

/-- `Math.max(0, num(body.postProduction, 0))`. -/
def camsToEditV1 (b : Body) : Int := max 0 (num b.postProduction 0)

/-- First camera 200, each additional camera +100; zero cameras cost 0. -/
def postProdV1 (b : Body) : Int :=
  if camsToEditV1 b > 0 then POST_PROD_FIRST + (camsToEditV1 b - 1) * POST_PROD_EACH_ADDL
  else 0

/-- `Math.max(1, num(body.peopleOnCamera, 1))`. -/
def peopleOnCameraV1 (b : Body) : Int := max 1 (num b.peopleOnCamera 1)

/-- `Math.max(1, peopleOnCamera, 1 + extraCams)` (informational). -/
def totalCamsV1 (b : Body) : Int :=
  max (max 1 (peopleOnCameraV1 b)) (1 + extraCamsV1 b)

/-- Breakdown record returned by the first `computeQuote`. -/
structure BreakdownV1 where
  baseSubtotal : Int
  engineerSubtotal : Int
  extrasSession : Int
  postProd : Int
  baseHourly : Int
deriving DecidableEq, Repr

/-- Quote record returned by the first `computeQuote`. -/
structure QuoteV1 where
  total : Int
  totalCams : Int
  hours : Int
  breakdown : BreakdownV1
  mode : String
  engineer : String
deriving DecidableEq, Repr

/-- Pricing engine `computeQuote` of the first `server.js` variant (also in `part_002`). -/
def computeQuote (b : Body) : QuoteV1 :=
  { total := hoursV1 b * baseHourlyV1 b + hoursV1 b * engineerHourlyV1 b +
             extrasSessionV1 b + postProdV1 b
    totalCams := totalCamsV1 b
    hours := hoursV1 b
    breakdown :=
      { baseSubtotal := hoursV1 b * baseHourlyV1 b
        engineerSubtotal := hoursV1 b * engineerHourlyV1 b
        extrasSession := extrasSessionV1 b
        postProd := postProdV1 b
        baseHourly := baseHourlyV1 b }
    mode := modeV1 b
    engineer := engineerNameV1 b }

-- ------------------- computeTotals (server.js second variant) ---------------

/-- Hours normalization of `computeTotals`: `Number(b.hours) || 0`, first-time
floor, floor 2, ceiling 6. -/
def hoursV2 (b : Body) : Int :=
  let h0 := jsOrN b.hours 0
  let h1 := if b.isFirstTime ∧ h0 < 2 then 2 else h0
  let h2 := if h1 < 2 then 2 else h1
  if h2 > 6 then 6 else h2

/-- `String(b.mode || 'ONE_CAMERA').toUpperCase()`. -/
def modeV2 (b : Body) : String := jsToUpper (jsOrS b.mode "ONE_CAMERA")

/-- `(mode === 'AUDIO_ONLY') ? 45 : 55`. -/
def baseRateV2 (b : Body) : Int := if modeV2 b = "AUDIO_ONLY" then 45 else 55

/-- Cameras included by the mode: AUDIO_ONLY has 0, ONE_CAMERA has 1. -/
def baseIncludedCamsV2 (b : Body) : Int := if modeV2 b = "AUDIO_ONLY" then 0 else 1

/-- `Math.max(0, Number(b.extraCameras) || 0)`. -/
def extraCamerasV2 (b : Body) : Int := max 0 (jsOrN b.extraCameras 0)

/-- `totalCams = baseIncludedCams + extraCameras`. -/
def totalCamsV2 (b : Body) : Int := baseIncludedCamsV2 b + extraCamerasV2 b

/-- `String(b.engineerChoice || 'any').toLowerCase()`. -/
def engineerChoiceV2 (b : Body) : String := jsToLower (jsOrS b.engineerChoice "any")

/-- `engineerChoice !== 'none'`. -/
def wantsEngineerV2 (b : Body) : Bool := engineerChoiceV2 b != "none"

/-- Post-production tier table `{0:0, 1:200, 2:250, 3:300, 4:350}` with `?? 0`. -/
def postTier (c : Int) : Int :=
  if c = 0 then 0
  else if c = 1 then 200
  else if c = 2 then 250
  else if c = 3 then 300
  else if c = 4 then 350
  else 0

/-- `Math.min(4, Number(b.postProduction) || totalCams)` — the explicit 0 is
falsy in JS and therefore falls back to the computed camera count. -/
def camsForPostV2 (b : Body) : Int := min 4 (jsOrN b.postProduction (totalCamsV2 b))

/-- Per-session add-ons of `computeTotals` (second variant). -/
def extrasSessionV2 (b : Body) : Int :=
  (if extraCamerasV2 b > 0 then extraCamerasV2 b * 25 else 0) +
  (if b.remoteGuest then 10 else 0) +
  (if b.teleprompter then 25 else 0) +
  (if b.adClips5 then 150 else 0) +
  (if b.mediaSdOrUsb then 50 else 0)

/-- Breakdown record of both `computeTotals` variants. -/
structure TotalsBreakdown where
  baseSubtotal : Int
  engineerSubtotal : Int
  extrasSession : Int
  postProd : Int
deriving DecidableEq, Repr

/-- Result record of both `computeTotals` variants. -/
structure Totals where
  breakdown : TotalsBreakdown
  total : Int
  totalCams : Int
deriving DecidableEq, Repr

/-- `computeTotals` of the second `server.js` variant. -/
def computeTotalsV2 (b : Body) : Totals :=
  let baseSubtotal := baseRateV2 b * hoursV2 b
  let engineerSubtotal := if wantsEngineerV2 b then 20 * hoursV2 b else 0
  let postProd := postTier (camsForPostV2 b)
  { breakdown :=
      { baseSubtotal := baseSubtotal
        engineerSubtotal := engineerSubtotal
        extrasSession := extrasSessionV2 b
        postProd := postProd }
    total := baseSubtotal + engineerSubtotal + extrasSessionV2 b + postProd
    totalCams := totalCamsV2 b }

-- ------------------- computeTotals (server.js third variant, the fix) -------

/-- `Math.max(2, Number(b.hours || 2))`. -/
def hoursV3 (b : Body) : Int := max 2 (jsOrN b.hours 2)

/-- `Math.max(1, Number(b.peopleOnCamera || 1))`. -/
def peopleOnCameraV3 (b : Body) : Int := max 1 (jsOrN b.peopleOnCamera 1)

/-- `Math.max(0, Number(b.extraCameras || 0))`. -/
def extraCamerasV3 (b : Body) : Int := max 0 (jsOrN b.extraCameras 0)

/-- `baseIncludedCams + extraCameras + Math.max(0, peopleOnCamera - 1)`. -/
def totalCamsV3 (b : Body) : Int :=
  baseIncludedCamsV2 b + extraCamerasV3 b + max 0 (peopleOnCameraV3 b - 1)

/-- The fixed resolution: `Math.max(0, Number(b.postProduction || 0))` —
strictly what the user selected, no fallback. -/
def camsForPostV3 (b : Body) : Int := max 0 (jsOrN b.postProduction 0)

/-- Per-session add-ons of `computeTotals` (third variant, same fees). -/
def extrasSessionV3 (b : Body) : Int :=
  (if extraCamerasV3 b > 0 then extraCamerasV3 b * 25 else 0) +
  (if b.remoteGuest then 10 else 0) +
  (if b.teleprompter then 25 else 0) +
  (if b.adClips5 then 150 else 0) +
  (if b.mediaSdOrUsb then 50 else 0)

/-- `computeTotals` of the third `server.js` variant ("fixed post-production
0 for None"): `POST_TIER[camsForPost] ?? 0` over the strict selection. -/
def computeTotalsV3 (b : Body) : Totals :=
  let baseSubtotal := baseRateV2 b * hoursV3 b
  let engineerSubtotal := if wantsEngineerV2 b then 20 * hoursV3 b else 0
  let postProd := postTier (camsForPostV3 b)
  { breakdown :=
      { baseSubtotal := baseSubtotal
        engineerSubtotal := engineerSubtotal
        extrasSession := extrasSessionV3 b
        postProd := postProd }
    total := baseSubtotal + engineerSubtotal + extrasSessionV3 b + postProd
    totalCams := totalCamsV3 b }

-- ------------------- computeQuote (part_003) --------------------------------

/-- Tier helper of `part_003`: 0 edits cost 0, else 200 + 100 per additional. -/
def postProdTiered (cams : Int) : Int :=
  let c := max 0 cams
  if c = 0 then 0 else 200 + (c - 1) * 100

/-- `(body.engineerChoice || 'any').toLowerCase()` in `part_003`. -/
def engChoiceP3 (b : Body) : String := jsToLower (jsOrS b.engineerChoice "any")

/-- `engChoice === 'none' ? 0 : HOURLY_ENGINEER` in `part_003`. -/
def engineerHourlyP3 (b : Body) : Int := if engChoiceP3 b = "none" then 0 else 20

/-- Breakdown record of `part_003`, extra cameras reported separately. -/
structure BreakdownP3 where
  baseSubtotal : Int
  engineerSubtotal : Int
  extrasSession : Int
  extraCamsSubtotal : Int
  postProd : Int
deriving DecidableEq, Repr

/-- Quote record of `part_003`. -/
structure QuoteP3 where
  total : Int
  totalCams : Int
  breakdown : BreakdownP3
  hours : Int
  mode : String
deriving DecidableEq, Repr

/-- `Math.max(2, n(body.hours, 2))` in `part_003`. -/
def hoursP3 (b : Body) : Int := max 2 (num b.hours 2)

/-- `(body.mode || 'ONE_CAMERA').toUpperCase()` in `part_003`. -/
def modeP3 (b : Body) : String := jsToUpper (jsOrS b.mode "ONE_CAMERA")

/-- Flat add-ons of `part_003` (extra cameras are a separate subtotal). -/
def extrasSessionP3 (b : Body) : Int :=
  (if b.teleprompter then 25 else 0) +
  (if b.remoteGuest then 10 else 0) +
  (if b.adClips5 then 150 else 0) +
  (if b.mediaSdOrUsb then 50 else 0)

/-- `Math.max(0, n(body.extraCameras, 0))` in `part_003`. -/
def extraCamerasP3 (b : Body) : Int := max 0 (num b.extraCameras 0)

/-- `computeQuote` of `part_003`. -/
def computeQuoteP3 (b : Body) : QuoteP3 :=
  let baseHourly := if modeP3 b = "AUDIO_ONLY" then 45 else 55
  let baseSubtotal := hoursP3 b * baseHourly
  let engineerSubtotal := hoursP3 b * engineerHourlyP3 b
  let extraCamsSubtotal := extraCamerasP3 b * 25
  let postProdSubtotal := postProdTiered (max 0 (num b.postProduction 0))
  let peopleOnCamera := max 1 (num b.peopleOnCamera 1)
  { total := baseSubtotal + engineerSubtotal + extrasSessionP3 b +
             extraCamsSubtotal + postProdSubtotal
    totalCams := max (max 1 (1 + extraCamerasP3 b)) peopleOnCamera
    breakdown :=
      { baseSubtotal := baseSubtotal
        engineerSubtotal := engineerSubtotal
        extrasSession := extrasSessionP3 b
        extraCamsSubtotal := extraCamsSubtotal
        postProd := postProdSubtotal }
    hours := hoursP3 b
    mode := modeP3 b }

-- ------------------- Line-item projections (POST /checkout) -----------------

/-- A Stripe line item as built by the checkout handlers: `unit_amount` in
cents and a `quantity`; only the monetary fields are modelled. -/
structure LineItem where
  unitAmountCents : Int
  quantity : Int
deriving DecidableEq, Repr

/-- Total charge of a list of line items, in cents. -/
def sumCents (items : List LineItem) : Int :=
  items.foldr (fun i acc => i.unitAmountCents * i.quantity + acc) 0

/-- Line items built by `POST /checkout` of the first `server.js` variant
(mirrored by `part_002`): base hours, engineer hours when the engineer
subtotal is positive, one flat item per set add-on, extra cameras by count,
and post-production as first camera plus additional cameras. -/
def lineItemsV1 (b : Body) : List LineItem :=
  let q := computeQuote b
  [⟨q.breakdown.baseHourly * 100, q.hours⟩] ++
  (if q.breakdown.engineerSubtotal > 0 then [⟨HOURLY_ENGINEER * 100, q.hours⟩] else []) ++
  (if b.teleprompter then [⟨TELEPROMPTER_FEE * 100, 1⟩] else []) ++
  (if b.remoteGuest then [⟨REMOTE_GUEST_FEE * 100, 1⟩] else []) ++
  (if b.adClips5 then [⟨AD_CLIPS_5_FEE * 100, 1⟩] else []) ++
  (if b.mediaSdOrUsb then [⟨MEDIA_SD_USB_FEE * 100, 1⟩] else []) ++
  (if extraCamsV1 b > 0 then [⟨EXTRA_CAMERA_EACH_FEE * 100, extraCamsV1 b⟩] else []) ++
  (if camsToEditV1 b > 0 then
     [⟨POST_PROD_FIRST * 100, 1⟩] ++
     (if camsToEditV1 b > 1 then [⟨POST_PROD_EACH_ADDL * 100, camsToEditV1 b - 1⟩] else [])
   else [])

/-- `Math.max(1, Number(b.hours) || 1)` — the quantity the second variant's
checkout uses for the base and engineer items (the raw hours, not the
clamped hours of `computeTotals`). -/
def qtyHoursV2 (b : Body) : Int := max 1 (jsOrN b.hours 1)

/-- Line items built by `POST /checkout` of the second `server.js` variant:
one item per truthy (nonzero) breakdown component. -/
def lineItemsV2 (b : Body) : List LineItem :=
  let base := computeTotalsV2 b
  (if base.breakdown.baseSubtotal ≠ 0 then [⟨baseRateV2 b * 100, qtyHoursV2 b⟩] else []) ++
  (if base.breakdown.engineerSubtotal ≠ 0 then [⟨2000, qtyHoursV2 b⟩] else []) ++
  (if base.breakdown.extrasSession ≠ 0 then [⟨base.breakdown.extrasSession * 100, 1⟩] else []) ++
  (if base.breakdown.postProd ≠ 0 then [⟨base.breakdown.postProd * 100, 1⟩] else [])

-- ------------------- Hold manager (part_002, Bookla-style module) -----------

/-- Default hold time-to-live in seconds (`HOLD_TTL_SECONDS`, default 600). -/
def HOLD_TTL_SECONDS : Int := 600

/-- A stored hold: room, date, start time, hours and expiry timestamp
(milliseconds), exactly the record kept in the `holds` map. -/
structure Hold where
  room : String
  date : String
  startTime : String
  hours : Int
  expiresAt : Int
deriving DecidableEq, Repr

/-- The in-memory `holds` map, as an association list from hold id to hold. -/
abbrev HoldStore := List (String × Hold)

/-- `purgeExpiredHolds`: drop every hold whose `expiresAt` is at or before now. -/
def purgeExpiredHolds (now : Int) (s : HoldStore) : HoldStore :=
  s.filter (fun p => decide (now < p.2.expiresAt))

/-- `holds.get(id)` over the association-list model. -/
def lookupHold (s : HoldStore) (id : String) : Option Hold :=
  (s.find? (fun p => p.1 = id)).map Prod.snd

/-- Numeric value of a digit character. -/
def digitVal (c : Char) : Nat := c.toNat - 48

/-- `parseHM`: accept exactly `HH:MM` with hour at most 23 and minute at most
59, returning the pair of numbers. -/
def parseHM (s : String) : Option (Nat × Nat) :=
  match s.data with
  | [h1, h2, c, m1, m2] =>
    if h1.isDigit && h2.isDigit && c = ':' && m1.isDigit && m2.isDigit then
      let h := digitVal h1 * 10 + digitVal h2
      let m := digitVal m1 * 10 + digitVal m2
      if h > 23 || m > 59 then none else some (h, m)
    else none
  | _ => none

/-- The regex `^\d{4}-\d{2}-\d{2}$` used to validate the `date` field. -/
def validDateStr (s : String) : Bool :=
  match s.data with
  | [y1, y2, y3, y4, s1, m1, m2, s2, d1, d2] =>
    y1.isDigit && y2.isDigit && y3.isDigit && y4.isDigit && s1 = '-' &&
    m1.isDigit && m2.isDigit && s2 = '-' && d1.isDigit && d2.isDigit
  | _ => false

/-- Minutes since local midnight of a parsed `HH:MM` pair; since both
intervals compared by the hold route live on the same date string, the
`Date` comparisons of `overlaps` reduce to minute comparisons. -/
def minutesOfDay (p : Nat × Nat) : Int := (p.1 : Int) * 60 + (p.2 : Int)

/-- `overlaps(aStart, aEnd, bStart, bEnd)`: strict half-open interval overlap. -/
def overlaps (aS aE bS bE : Int) : Bool := decide (aS < bE) && decide (bS < aE)

/-- Request body of `POST /public/hold`; `room` defaults to `ROOMS[0]`
("The Studio") and `hours` to 2 by destructuring, and an absent `date` or
`startTime` stringifies to "undefined", which fails validation. -/
structure HoldReq where
  room : Option String
  date : Option String
  startTime : Option String
  hours : Option Int
deriving DecidableEq, Repr

def HoldReq.roomD (r : HoldReq) : String := r.room.getD "The Studio"
def HoldReq.dateD (r : HoldReq) : String := r.date.getD "undefined"
def HoldReq.startTimeD (r : HoldReq) : String := r.startTime.getD "undefined"
def HoldReq.hoursD (r : HoldReq) : Int := r.hours.getD 2

/-- Outcome of `POST /public/hold`: the two 400 validations, the 409
conflict, and the 200 hold creation. -/
inductive HoldOutcome
  | badDate
  | badTime
  | conflict
  | created
deriving DecidableEq, Repr

/-- Collision test of `POST /public/hold`: some stored hold on the same room
and date whose interval overlaps the requested one.  A stored start time
that fails to parse yields an invalid date in JS, whose comparisons are all
false, so it never collides. -/
def holdCollides (s : HoldStore) (room date : String) (startM endM : Int) : Bool :=
  s.any (fun q =>
    if q.2.room ≠ room ∨ q.2.date ≠ date then false
    else
      match parseHM q.2.startTime with
      | none => false
      | some ph =>
        overlaps startM endM (minutesOfDay ph) (minutesOfDay ph + q.2.hours * 60))

/-- Handler of `POST /public/hold`: purge expired holds, validate the date
and start time, reject on collision, otherwise store a fresh hold expiring
`HOLD_TTL_SECONDS` seconds from now.  The generated random id is passed in
as `newId`. -/
def processHold (s : HoldStore) (now : Int) (newId : String) (r : HoldReq) :
    HoldOutcome × HoldStore :=
  let s1 := purgeExpiredHolds now s
  if ¬ validDateStr r.dateD then (.badDate, s1)
  else
    match parseHM r.startTimeD with
    | none => (.badTime, s1)
    | some p =>
      let startM := minutesOfDay p
      let endM := startM + r.hoursD * 60
      if holdCollides s1 r.roomD r.dateD startM endM then (.conflict, s1)
      else
        (.created,
         s1 ++ [(newId,
           { room := r.roomD, date := r.dateD, startTime := r.startTimeD,
             hours := r.hoursD, expiresAt := now + HOLD_TTL_SECONDS * 1000 })])

/-- Argument record of `verifyAndConsumeHold`, carrying the raw checkout
fields; absent fields never strictly equal a stored string or number. -/
structure VerifyReq where
  holdId : Option String
  room : Option String
  date : Option String
  startTime : Option String
  hours : Option Int
deriving DecidableEq, Repr

/-- Outcome of `verifyAndConsumeHold`: `ok` lets the checkout proceed, the
two failures make `POST /checkout` answer 409 with the matching message. -/
inductive VerifyOutcome
  | ok
  | notFound
  | mismatch
deriving DecidableEq, Repr

/-- `verifyAndConsumeHold` of `part_002`: purge, then pass straight through
when no (or an empty) `holdId` was supplied; otherwise require the hold to
exist and all four of room, date, startTime, hours to match exactly before
deleting it; on mismatch the store is left as purged. -/
def verifyAndConsumeHold (s : HoldStore) (now : Int) (r : VerifyReq) :
    VerifyOutcome × HoldStore :=
  let s1 := purgeExpiredHolds now s
  match r.holdId with
  | none => (.ok, s1)
  | some id =>
    if id = "" then (.ok, s1)
    else
      match lookupHold s1 id with
      | none => (.notFound, s1)
      | some h =>
        if r.room ≠ some h.room ∨ r.date ≠ some h.date ∨
           r.startTime ≠ some h.startTime ∨ r.hours ≠ some h.hours then
          (.mismatch, s1)
        else
          (.ok, s1.filter (fun p => decide (p.1 ≠ id)))

/-- Whether `POST /checkout` of `part_002` passes its hold gate (any outcome
other than `ok` is answered with status 409 and no session is created). -/
def checkoutHoldGatePasses (s : HoldStore) (now : Int) (r : VerifyReq) : Bool :=
  decide ((verifyAndConsumeHold s now r).1 = .ok)

/-- Scenario input of the spec: hours 2, one-camera mode, any engineer, no
extra cameras, explicit zero post-production. -/
def c5Body : Body :=
  { b0 with hours := some 2, mode := some "ONE_CAMERA",
            engineerChoice := some "any", extraCameras := some 0,
            postProduction := some 0 }

-- ------------------- Helper lemmas ------------------------------------------

/-- The floor of the first variant's hours normalization. -/
theorem hoursV1_ge_two (b : Body) : 2 ≤ hoursV1 b := le_max_left _ _

/-- The second variant clamps hours into the interval from 2 to 6. -/
theorem hoursV2_bounds (b : Body) : 2 ≤ hoursV2 b ∧ hoursV2 b ≤ 6 := by
  simp only [hoursV2]
  split_ifs <;> omega

theorem sumCents_nil : sumCents [] = 0 := rfl

theorem sumCents_cons (i : LineItem) (xs : List LineItem) :
    sumCents (i :: xs) = i.unitAmountCents * i.quantity + sumCents xs := rfl

theorem sumCents_append (xs ys : List LineItem) :
    sumCents (xs ++ ys) = sumCents xs + sumCents ys := by
  induction xs with
  | nil => simp [sumCents_nil]
  | cons x xs ih =>
    rw [List.cons_append, sumCents_cons, sumCents_cons, ih, add_assoc]

theorem sumCents_singleton (i : LineItem) :
    sumCents [i] = i.unitAmountCents * i.quantity := by
  rw [sumCents_cons, sumCents_nil, add_zero]

theorem sumCents_if (c : Prop) [Decidable c] (i : LineItem) :
    sumCents (if c then [i] else []) =
      if c then i.unitAmountCents * i.quantity else 0 := by
  split <;> simp [sumCents_singleton, sumCents_nil]

-- ------------------- Claim theorems -----------------------------------------

/-- Claim C2: in every quote the total equals the sum of the breakdown
components — base, engineer, session extras and post-production for the
first `computeQuote`, with the separate extra-camera subtotal added for the
`part_003` variant. -/
theorem c2_sum_invariant (b : Body) :
    (computeQuote b).total =
      (computeQuote b).breakdown.baseSubtotal +
      (computeQuote b).breakdown.engineerSubtotal +
      (computeQuote b).breakdown.extrasSession +
      (computeQuote b).breakdown.postProd ∧
    (computeQuoteP3 b).total =
      (computeQuoteP3 b).breakdown.baseSubtotal +
      (computeQuoteP3 b).breakdown.engineerSubtotal +
      (computeQuoteP3 b).breakdown.extrasSession +
      (computeQuoteP3 b).breakdown.extraCamsSubtotal +
      (computeQuoteP3 b).breakdown.postProd :=
  ⟨rfl, rfl⟩

/-- Claim C7: two booking requests that differ only in `peopleOnCamera`
produce the same total and the same price breakdown in both cited
calculators; the field is informational only. -/
theorem c7_peopleOnCamera_noninterference (b : Body) (p : Option Int) :
    ((computeQuote { b with peopleOnCamera := p }).total = (computeQuote b).total ∧
     (computeQuote { b with peopleOnCamera := p }).breakdown = (computeQuote b).breakdown) ∧
    ((computeQuoteP3 { b with peopleOnCamera := p }).total = (computeQuoteP3 b).total ∧
     (computeQuoteP3 { b with peopleOnCamera := p }).breakdown = (computeQuoteP3 b).breakdown) :=
  ⟨⟨rfl, rfl⟩, ⟨rfl, rfl⟩⟩

/-- Claim C1 (code bug): the spec's regression input — hours 2, two extra
cameras, explicit `postProduction` 0 — must yield zero post-production, but
the second variant's `computeTotals` resolves the explicit 0 through
`Number(b.postProduction) || totalCams`, falls back to the three-camera
count and bills 300; the third ("fixed") variant bills 0 as required. -/
theorem c1_explicit_zero_postprod_defect :
    camsForPostV2 { b0 with hours := some 2, extraCameras := some 2, postProduction := some 0 } = 3 ∧
    (computeTotalsV2 { b0 with hours := some 2, extraCameras := some 2, postProduction := some 0 }).breakdown.postProd = 300 ∧
    (computeTotalsV3 { b0 with hours := some 2, extraCameras := some 2, postProduction := some 0 }).breakdown.postProd = 0 := by
  decide

/-- Claim C5 (code bug): on the scenario input the first variant's
`computeQuote` returns exactly the claimed breakdown (110, 40, 0, 0, total
150), but the second variant's `computeTotals` — cited by the same claim —
turns the explicit `postProduction` 0 into a 200 post-production fee and a
350 total. -/
theorem c5_scenario_eval :
    ((computeQuote c5Body).breakdown.baseSubtotal = 110 ∧
     (computeQuote c5Body).breakdown.engineerSubtotal = 40 ∧
     (computeQuote c5Body).breakdown.extrasSession = 0 ∧
     (computeQuote c5Body).breakdown.postProd = 0 ∧
     (computeQuote c5Body).total = 150) ∧
    ((computeTotalsV2 c5Body).breakdown.postProd = 200 ∧
     (computeTotalsV2 c5Body).total = 350) := by
  decide

/-- Claim C3 counterexample: sending the spec's enum value `none` (lower
case) as `engineerChoice` to the first variant's `computeQuote` does not
zero the engineer fee — the code compares the resolved name against the
exact string "None", so the default two hours are billed at 20 per hour. -/
theorem c3_lowercase_none_is_charged :
    (computeQuote { b0 with engineerChoice := some "none" }).breakdown.engineerSubtotal = 40 ∧
    (computeQuote { b0 with engineerChoice := some "none" }).breakdown.engineerSubtotal ≠ 0 := by
  decide

/-- Claim C3 as amended: in the `part_003` variant the engineer subtotal is
hours times 20 unless the lower-cased `engineerChoice` is `none`, in which
case it is 0; in the first `server.js` variant the fee is keyed on the
resolved engineer value (`engineer || engineerChoice || "Floating"`) and
only the exact, case-sensitive string "None" yields 0. -/
theorem c3_engineer_fee_rules (b : Body) :
    (computeQuoteP3 b).breakdown.engineerSubtotal =
      (if engChoiceP3 b = "none" then 0 else (computeQuoteP3 b).hours * 20) ∧
    (computeQuote b).breakdown.engineerSubtotal =
      (if engineerNameV1 b = "None" then 0 else (computeQuote b).hours * HOURLY_ENGINEER) := by
  constructor
  · by_cases h : engChoiceP3 b = "none" <;>
      simp [computeQuoteP3, engineerHourlyP3, h]
  · by_cases h : engineerNameV1 b = "None" <;>
      simp [computeQuote, engineerHourlyV1, h]

/-- Claim C4 counterexample: the first variant's `computeQuote` applies no
ceiling — requesting 10 hours resolves to 10 hours, above the claimed
maximum of 6. -/
theorem c4_no_ceiling_in_computeQuote :
    (computeQuote { b0 with hours := some 10 }).hours = 10 ∧
    ¬ ((computeQuote { b0 with hours := some 10 }).hours ≤ 6) := by
  decide

/-- Claim C4 as amended: the `computeTotals` normalization clamps resolved
hours into the interval from 2 to 6 (so in particular a first-time booking
resolves to at least 2 hours), while the `computeQuote` variant only
applies the floor of 2 — it has no ceiling. -/
theorem c4_hours_clamp_rules (b : Body) :
    (2 ≤ hoursV2 b ∧ hoursV2 b ≤ 6) ∧
    2 ≤ hoursV2 { b with isFirstTime := true } ∧
    2 ≤ (computeQuote b).hours := by
  refine ⟨hoursV2_bounds b, (hoursV2_bounds _).1, ?_⟩
  exact hoursV1_ge_two b

/-- Claim C6 counterexample: the second variant's checkout quantifies the
base and engineer items by the raw request hours, not the clamped hours of
`computeTotals` — for a one-hour audio request the line items sum to 6500
cents while the quote total is 130 dollars (13000 cents). -/
theorem c6_rawhours_lineitem_mismatch :
    sumCents (lineItemsV2 { b0 with hours := some 1, mode := some "AUDIO_ONLY" }) = 6500 ∧
    (computeTotalsV2 { b0 with hours := some 1, mode := some "AUDIO_ONLY" }).total = 130 ∧
    sumCents (lineItemsV2 { b0 with hours := some 1, mode := some "AUDIO_ONLY" }) ≠
      100 * (computeTotalsV2 { b0 with hours := some 1, mode := some "AUDIO_ONLY" }).total := by
  decide

theorem sumCents_nested_if (c1 c2 : Prop) [Decidable c1] [Decidable c2] (i j : LineItem) :
    sumCents (if c1 then [i] ++ (if c2 then [j] else []) else []) =
      (if c1 then i.unitAmountCents * i.quantity +
        (if c2 then j.unitAmountCents * j.quantity else 0) else 0) := by
  split_ifs <;> simp [sumCents_append, sumCents_cons, sumCents_singleton, sumCents_nil]

set_option maxHeartbeats 4000000 in
/-- Claim C6 as amended: the first variant's checkout line items always sum
to exactly 100 times the quote total; the second variant's line items sum
to 100 times the `computeTotals` total exactly when the raw-hours quantity
`max(1, Number(hours) || 1)` coincides with the clamped hours used by the
quote (in particular whenever the requested hours already lie in 2..6). -/
theorem c6_lineitem_sum_rules (b : Body) :
    sumCents (lineItemsV1 b) = 100 * (computeQuote b).total ∧
    (qtyHoursV2 b = hoursV2 b →
      sumCents (lineItemsV2 b) = 100 * (computeTotalsV2 b).total) := by
  constructor
  · have hH : 2 ≤ hoursV1 b := hoursV1_ge_two b
    have hEC : 0 ≤ extraCamsV1 b := le_max_left _ _
    have hPP : 0 ≤ camsToEditV1 b := le_max_left _ _
    simp only [lineItemsV1, computeQuote, sumCents_append, sumCents_if,
      sumCents_nested_if, sumCents_singleton, sumCents_cons, sumCents_nil,
      extrasSessionV1, postProdV1, engineerHourlyV1, baseHourlyV1,
      HOURLY_BASE_AUDIOONLY, HOURLY_BASE_ONE_CAM, HOURLY_ENGINEER,
      TELEPROMPTER_FEE, REMOTE_GUEST_FEE, AD_CLIPS_5_FEE, MEDIA_SD_USB_FEE,
      EXTRA_CAMERA_EACH_FEE, POST_PROD_FIRST, POST_PROD_EACH_ADDL]
    split_ifs <;> omega
  · intro hq
    have hb := hoursV2_bounds b
    simp only [lineItemsV2, computeTotalsV2, sumCents_append, sumCents_if,
      sumCents_singleton, sumCents_cons, sumCents_nil, hq, baseRateV2]
    split_ifs <;> omega

/-- Claim C6 witness: a concrete three-hour request on which the raw-hours
quantity agrees with the clamped hours, so the second variant's line items
sum to the quote total in cents. -/
theorem c6_lineitem_sum_rules_witness :
    qtyHoursV2 { b0 with hours := some 3 } = hoursV2 { b0 with hours := some 3 } ∧
    sumCents (lineItemsV2 { b0 with hours := some 3 }) =
      100 * (computeTotalsV2 { b0 with hours := some 3 }).total :=
  ⟨by decide, (c6_lineitem_sum_rules { b0 with hours := some 3 }).2 (by decide)⟩

/-- Claim C10: a checkout that supplies no `holdId` (absent or empty) skips
hold verification entirely — `verifyAndConsumeHold` answers ok whatever the
hold store contains (in particular while another client's active hold
covers the very same slot), and the checkout hold gate passes. -/
theorem c10_absent_holdId_skips_verification
    (s : HoldStore) (now : Int) (r : VerifyReq)
    (hid : r.holdId = none ∨ r.holdId = some "") :
    verifyAndConsumeHold s now r = (.ok, purgeExpiredHolds now s) ∧
    checkoutHoldGatePasses s now r = true := by
  rcases hid with h | h <;>
    simp [verifyAndConsumeHold, checkoutHoldGatePasses, h]

/-- Claim C10 witness: with an unexpired hold of another client stored for
the slot, a checkout request carrying no `holdId` still passes the gate and
consumes nothing. -/
theorem c10_absent_holdId_skips_verification_witness :
    (⟨none, some "The Studio", some "2025-06-10", some "10:00", some 2⟩ : VerifyReq).holdId = none ∧
    verifyAndConsumeHold [("A", ⟨"The Studio", "2025-06-10", "10:00", 2, 600000⟩)] 1000
        ⟨none, some "The Studio", some "2025-06-10", some "10:00", some 2⟩ =
      (.ok, [("A", ⟨"The Studio", "2025-06-10", "10:00", 2, 600000⟩)]) := by
  refine ⟨rfl, ?_⟩
  have h := c10_absent_holdId_skips_verification
    [("A", ⟨"The Studio", "2025-06-10", "10:00", 2, 600000⟩)] 1000
    ⟨none, some "The Studio", some "2025-06-10", some "10:00", some 2⟩ (Or.inl rfl)
  rw [h.1]
  decide

/-- Claim C9: when the checkout names an existing non-expired hold, any
difference in room, date, start time or hours makes `verifyAndConsumeHold`
answer a mismatch — the checkout gate fails (a 409) and the purged store is
returned unchanged, the hold still in it; only an exact match of all four
fields deletes the hold and lets the checkout proceed. -/
theorem c9_hold_consume_exact_match
    (s : HoldStore) (now : Int) (r : VerifyReq) (id : String) (h : Hold)
    (hid : r.holdId = some id) (hne : id ≠ "")
    (hfound : lookupHold (purgeExpiredHolds now s) id = some h) :
    ((r.room ≠ some h.room ∨ r.date ≠ some h.date ∨ r.startTime ≠ some h.startTime ∨
      r.hours ≠ some h.hours) →
        verifyAndConsumeHold s now r = (.mismatch, purgeExpiredHolds now s) ∧
        checkoutHoldGatePasses s now r = false ∧
        lookupHold (verifyAndConsumeHold s now r).2 id = some h) ∧
    ((r.room = some h.room ∧ r.date = some h.date ∧ r.startTime = some h.startTime ∧
      r.hours = some h.hours) →
        verifyAndConsumeHold s now r =
          (.ok, (purgeExpiredHolds now s).filter (fun p => decide (p.1 ≠ id)))) := by
  constructor
  · intro hmm
    have hv : verifyAndConsumeHold s now r = (.mismatch, purgeExpiredHolds now s) := by
      simp only [verifyAndConsumeHold, hid, hfound]
      rw [if_neg hne, if_pos hmm]
    refine ⟨hv, ?_, ?_⟩
    · simp [checkoutHoldGatePasses, hv]
    · rw [hv]; exact hfound
  · intro hmatch
    have hnot : ¬ (r.room ≠ some h.room ∨ r.date ≠ some h.date ∨
        r.startTime ≠ some h.startTime ∨ r.hours ≠ some h.hours) := by
      push_neg
      exact ⟨hmatch.1, hmatch.2.1, hmatch.2.2.1, hmatch.2.2.2⟩
    simp only [verifyAndConsumeHold, hid, hfound]
    rw [if_neg hne, if_neg hnot]

/-- Claim C9 witness: a stored, unexpired hold with two booked hours; a
checkout naming its id but claiming three hours is answered with a mismatch
and the hold survives, while the exact request consumes it. -/
theorem c9_hold_consume_exact_match_witness :
    ((some 3 : Option Int) ≠ some (2 : Int)) ∧
    verifyAndConsumeHold [("A", ⟨"The Studio", "2025-06-10", "10:00", 2, 600000⟩)] 1000
        ⟨some "A", some "The Studio", some "2025-06-10", some "10:00", some 3⟩ =
      (.mismatch, [("A", ⟨"The Studio", "2025-06-10", "10:00", 2, 600000⟩)]) := by
  refine ⟨by decide, ?_⟩
  have h := (c9_hold_consume_exact_match
    [("A", ⟨"The Studio", "2025-06-10", "10:00", 2, 600000⟩)] 1000
    ⟨some "A", some "The Studio", some "2025-06-10", some "10:00", some 3⟩
    "A" ⟨"The Studio", "2025-06-10", "10:00", 2, 600000⟩
    rfl (by decide) (by decide)).1 (by decide)
  rw [h.1]
  decide

/-- Claim C8: once a hold request has been accepted, a second hold request
for the same room and date whose time interval overlaps the first — made
while the first hold is still within its time-to-live — is answered with a
conflict, and the store it leaves behind is just the purged store: no
second hold is added. -/
theorem c8_hold_exclusivity
    (s : HoldStore) (t1 t2 : Int) (id1 id2 : String) (r1 r2 : HoldReq)
    (s1 : HoldStore) (p1 p2 : Nat × Nat)
    (hacc : processHold s t1 id1 r1 = (.created, s1))
    (hp1 : parseHM r1.startTimeD = some p1)
    (hp2 : parseHM r2.startTimeD = some p2)
    (hroom : r2.roomD = r1.roomD)
    (hdate : r2.dateD = r1.dateD)
    (hvd2 : validDateStr r2.dateD = true)
    (hactive : t2 < t1 + HOLD_TTL_SECONDS * 1000)
    (hov1 : minutesOfDay p2 < minutesOfDay p1 + r1.hoursD * 60)
    (hov2 : minutesOfDay p1 < minutesOfDay p2 + r2.hoursD * 60) :
    processHold s1 t2 id2 r2 = (.conflict, purgeExpiredHolds t2 s1) := by
  simp only [processHold, hp1] at hacc
  by_cases hvd1 : validDateStr r1.dateD = true
  · rw [if_neg (by simp [hvd1])] at hacc
    by_cases hcol1 : holdCollides (purgeExpiredHolds t1 s) r1.roomD r1.dateD
        (minutesOfDay p1) (minutesOfDay p1 + r1.hoursD * 60) = true
    · rw [if_pos hcol1] at hacc
      exact absurd (congrArg Prod.fst hacc) (by simp)
    · rw [if_neg hcol1] at hacc
      injection hacc with hout hs1
      subst hs1
      have hcoll : holdCollides
          (purgeExpiredHolds t2 (purgeExpiredHolds t1 s ++
            [(id1, { room := r1.roomD, date := r1.dateD, startTime := r1.startTimeD,
                     hours := r1.hoursD, expiresAt := t1 + HOLD_TTL_SECONDS * 1000 })]))
          r2.roomD r2.dateD (minutesOfDay p2) (minutesOfDay p2 + r2.hoursD * 60) = true := by
        unfold holdCollides
        rw [List.any_eq_true]
        refine ⟨(id1, { room := r1.roomD, date := r1.dateD, startTime := r1.startTimeD,
                        hours := r1.hoursD, expiresAt := t1 + HOLD_TTL_SECONDS * 1000 }), ?_, ?_⟩
        · unfold purgeExpiredHolds
          rw [List.mem_filter]
          refine ⟨List.mem_append_right _ (List.mem_singleton.mpr rfl), ?_⟩
          simpa using hactive
        · rw [if_neg (by simp [hroom, hdate])]
          simp only [hp1, overlaps]
          simpa using ⟨hov1, hov2⟩
      simp only [processHold, hp2]
      rw [if_neg (by simp [hvd2]), if_pos hcoll]
  · rw [if_pos (by simp [hvd1])] at hacc
    exact absurd (congrArg Prod.fst hacc) (by simp)

/-- Claim C8 witness: the spec's scenario — hold A at 10:00 for two hours
on The Studio, then hold B at 11:00 for two hours on the same room and date
while A is still live — is answered with a conflict and the store still
contains only hold A. -/
theorem c8_hold_exclusivity_witness :
    processHold [("A", ⟨"The Studio", "2025-06-10", "10:00", 2, 600000⟩)] 1000 "B"
        ⟨some "The Studio", some "2025-06-10", some "11:00", some 2⟩ =
      (.conflict, [("A", ⟨"The Studio", "2025-06-10", "10:00", 2, 600000⟩)]) := by
  have h := c8_hold_exclusivity [] 0 1000 "A" "B"
    ⟨some "The Studio", some "2025-06-10", some "10:00", some 2⟩
    ⟨some "The Studio", some "2025-06-10", some "11:00", some 2⟩
    [("A", ⟨"The Studio", "2025-06-10", "10:00", 2, 600000⟩)] (10, 0) (11, 0)
    (by decide) (by decide) (by decide) rfl rfl (by decide) (by decide)
    (by decide) (by decide)
  rw [h]
  decide
